import Mathlib

/-
Verification of the request-handling shim in `src/my_agent.py`: the
configuration-resolution/fallback policy and the success/error telemetry
contract around a single agent call.

Shallow embedding notes.
* `Payload` models the JSON payload; only the fields the handler reads
  (`prompt`, `user_id`) are represented, each as an `Option String`
  (`none` = key absent).
* `AIConfig`, `ModelConfig`, `Message` mirror the LaunchDarkly AI SDK
  dataclasses used by the code: `AIConfig.enabled : bool`,
  `AIConfig.model : Optional[ModelConfig]`, `AIConfig.messages :
  Optional[List[LDMessage]]`; `ModelConfig.name` and the message
  `role`/`content` fields are strings.  Python truthiness of an optional
  list (`None` and `[]` falsy) and of an optional string (`None` and `""`
  falsy) is modelled explicitly at each use site.
* External collaborators (the LaunchDarkly client, the Strands `Agent`
  constructor and call, the tracker's `track_success`) are an `Env` of
  oracles; a collaborator that raises an `Exception` is modelled as
  `Except.error msg` carrying the exception text `str(e)`.
* `invokeBody` is the body of the `try:` block of the entrypoint
  `invoke`; `invoke` itself adds the `except Exception` wrapper that
  converts a raised error into `{"error": "Error: " + str(e)}`.
  Alongside the response, a `RunLog` records the observable side effects
  the specification talks about: how many `track_success` /
  `track_error` calls were made, whether a remote configuration call was
  attempted, the keyword arguments the agent was constructed with, and
  the user message passed to the agent call (if reached).  The handler's
  source contains no `track_error()` call, so `errorCalls` is the count
  of such calls actually performed (always zero on every path).
* Logging statements are unobservable side effects and are not modelled.
-/

namespace MyAgent

/-- One entry of an AI config's message list: a `role` and a `content`
string, mirroring the SDK's `LDMessage`. -/
structure Message where
  role : String
  content : String
deriving DecidableEq, Repr

/-- The model section of an AI config; the SDK's `ModelConfig` exposes a
string `name` (read at line 161 of `src/my_agent.py`). -/
structure ModelConfig where
  name : String
deriving DecidableEq, Repr

/-- The LaunchDarkly `AIConfig` value as the handler consumes it:
`enabled` flag, optional model section, optional message list. -/
structure AIConfig where
  enabled : Bool
  model : Option ModelConfig
  messages : Option (List Message)
deriving DecidableEq, Repr

/-- `FALLBACK_AI_CONFIG = AIConfig(enabled=False)` (line 92): no model,
no messages. -/
def FALLBACK_AI_CONFIG : AIConfig :=
  { enabled := false, model := none, messages := none }

/-- The request payload fields the handler reads: `prompt` (line 121)
and `user_id` (line 136); `none` means the key is absent. -/
structure Payload where
  prompt : Option String
  user_id : Option String
deriving DecidableEq, Repr

/-- Oracles for the external collaborators of one request.
`ldClientInit` is whether `ld_ai_client` is non-`None` (line 132);
`configCall` is `ld_ai_client.config(LD_AI_CONFIG_ID, context, fallback,
variables)` as a function of the context key and the variables map, with
`Except.error` a raised exception; `agentInit` is `Agent(**kwargs)`;
`agentCall` is `agent(user_message)`, returning `result.message` on
success; `trackSuccess` is the behavior of `tracker.track_success()`. -/
structure Env where
  ldClientInit : Bool
  configCall : String → List (String × String) → Except String AIConfig
  agentInit : List (String × String) → Except String Unit
  agentCall : String → Except String String
  trackSuccess : Except String Unit

/-- Line 121: `payload.get("prompt", "Hello! How can I help you today?")`. -/
def userMessageOf (p : Payload) : String :=
  p.prompt.getD "Hello! How can I help you today?"

/-- Line 136: `payload.get("user_id", "anonymous-user")`. -/
def contextKeyOf (p : Payload) : String :=
  p.user_id.getD "anonymous-user"

/-- Line 144: `variables = {"user_message": user_message}`. -/
def variablesOf (p : Payload) : List (String × String) :=
  [("user_message", userMessageOf p)]

/-- The remote configuration lookup the handler performs for payload
`p` (lines 148-153). -/
def configCallOf (env : Env) (p : Payload) : Except String AIConfig :=
  env.configCall (contextKeyOf p) (variablesOf p)

/-- Lines 167-171: `for msg in config.messages: if msg.role == "system":
system_prompt = msg.content; break` — content of the first system-role
message, `none` if the loop finds none. -/
def firstSystemLoop : List Message → Option String
  | [] => none
  | m :: rest => if m.role = "system" then some m.content else firstSystemLoop rest

/-- Lines 165-171: the loop runs only under the guard
`hasattr(config, 'messages') and config.messages` — the message list
must be present and non-empty (Python truthiness). -/
def extractSystemPrompt (cfg : AIConfig) : Option String :=
  match cfg.messages with
  | some msgs => if msgs.isEmpty then none else firstSystemLoop msgs
  | none => none

/-- Lines 160-161: `if config.model and hasattr(config.model, 'name'):
model_name = config.model.name`; a present `ModelConfig` is truthy and
always has `name`. -/
def extractModelName (cfg : AIConfig) : Option String :=
  match cfg.model with
  | some m => some m.name
  | none => none

/-- The spec's stated extraction precedence, written from the spec's
words for comparison with `extractSystemPrompt`: first system-role
entry's content, else the first message's content (if any), else unset. -/
def specSystemPrompt (cfg : AIConfig) : Option String :=
  match cfg.messages with
  | some msgs =>
    match firstSystemLoop msgs with
    | some c => some c
    | none => msgs.head?.map (fun m => m.content)
  | none => none

/-- The local state of the configuration-resolution section of `invoke`
(lines 127-179) once it completes: the four locals `system_prompt`,
`model_name`, `config`, `tracker` (the last reduced to presence), plus
a flag recording whether the remote call was attempted. -/
structure ResolveState where
  system_prompt : Option String
  model_name : Option String
  config : Option AIConfig
  tracker : Bool
  remoteCallAttempted : Bool

/-- Lines 127-179 of `invoke`: all four locals start `None`; when the
client exists the remote call is attempted; on success `config, tracker`
are both bound and, when `config.enabled`, the model name and system
prompt are extracted; on a raised exception `config` is set to
`FALLBACK_AI_CONFIG` and `tracker` stays `None`; when the client is
absent nothing is attempted. -/
def resolve (env : Env) (p : Payload) : ResolveState :=
  if env.ldClientInit then
    match configCallOf env p with
    | .ok cfg =>
      if cfg.enabled then
        { system_prompt := extractSystemPrompt cfg
          model_name := extractModelName cfg
          config := some cfg
          tracker := true
          remoteCallAttempted := true }
      else
        { system_prompt := none
          model_name := none
          config := some cfg
          tracker := true
          remoteCallAttempted := true }
    | .error _ =>
      { system_prompt := none
        model_name := none
        config := some FALLBACK_AI_CONFIG
        tracker := false
        remoteCallAttempted := true }
  else
    { system_prompt := none
      model_name := none
      config := none
      tracker := false
      remoteCallAttempted := false }

/-- Truthiness of the local `config` followed by `config.enabled`:
`None` is falsy, an `AIConfig` object is truthy. -/
def effectiveEnabled (s : ResolveState) : Bool :=
  match s.config with
  | some c => c.enabled
  | none => false

/-- Line 210: the guard `tracker and config and config.enabled`. -/
def trackingActive (s : ResolveState) : Bool :=
  s.tracker && effectiveEnabled s

/-- Lines 184-192: `agent_kwargs = {}` then `if system_prompt: ...` and
`if model_name: ...` — a key is added only when the optional string is
truthy (present and non-empty).  The dict is an association list. -/
def buildAgentKwargs (sp mn : Option String) : List (String × String) :=
  (match sp with
   | some s => if s = "" then [] else [("system_prompt", s)]
   | none => []) ++
  (match mn with
   | some m => if m = "" then [] else [("model", m)]
   | none => [])

/-- The keyword arguments `Agent(**agent_kwargs)` receives for payload
`p` under environment `env`. -/
def resolvedKwargs (env : Env) (p : Payload) : List (String × String) :=
  buildAgentKwargs (resolve env p).system_prompt (resolve env p).model_name

/-- The entrypoint's response payload: `{"result": ...}` or
`{"error": ...}` (lines 215 and 253). -/
inductive Response where
  | result (message : String)
  | error (message : String)
deriving DecidableEq, Repr

/-- Observable side effects of one run of the handler. -/
structure RunLog where
  successCalls : Nat
  errorCalls : Nat
  remoteCallAttempted : Bool
  kwargs : List (String × String)
  sentMessage : Option String
deriving DecidableEq, Repr

/-- The body of the `try:` block of `invoke` (lines 104-244): resolve
the configuration, build `agent_kwargs`, construct the agent, call it
with the user message, run `tracker.track_success()` under the guard of
line 210, and produce `result.message`; `Except.error` is an exception
escaping the body.  The source contains no `track_error()` call, so
`errorCalls` is zero on every path. -/
def invokeBody (env : Env) (p : Payload) : Except String String × RunLog :=
  let user_message := userMessageOf p
  let st := resolve env p
  let kwargs := buildAgentKwargs st.system_prompt st.model_name
  match env.agentInit kwargs with
  | .error e =>
    (.error e,
     { successCalls := 0, errorCalls := 0
       remoteCallAttempted := st.remoteCallAttempted
       kwargs := kwargs, sentMessage := none })
  | .ok _ =>
    match env.agentCall user_message with
    | .error e =>
      (.error e,
       { successCalls := 0, errorCalls := 0
         remoteCallAttempted := st.remoteCallAttempted
         kwargs := kwargs, sentMessage := some user_message })
    | .ok reply =>
      if trackingActive st then
        match env.trackSuccess with
        | .error e =>
          (.error e,
           { successCalls := 1, errorCalls := 0
             remoteCallAttempted := st.remoteCallAttempted
             kwargs := kwargs, sentMessage := some user_message })
        | .ok _ =>
          (.ok reply,
           { successCalls := 1, errorCalls := 0
             remoteCallAttempted := st.remoteCallAttempted
             kwargs := kwargs, sentMessage := some user_message })
      else
        (.ok reply,
         { successCalls := 0, errorCalls := 0
           remoteCallAttempted := st.remoteCallAttempted
           kwargs := kwargs, sentMessage := some user_message })

/-- The entrypoint `invoke` (lines 99-261): the `try:` body wrapped in
`except Exception as e`, which returns `{"error": f"Error: {str(e)}"}`
(line 253); a normal return is `{"result": result.message}` (line 215). -/
def invoke (env : Env) (p : Payload) : Response × RunLog :=
  match invokeBody env p with
  | (.ok reply, log) => (Response.result reply, log)
  | (.error e, log) => (Response.error ("Error: " ++ e), log)

/-! ### Concrete fixtures used by counterexamples and witnesses -/

/-- A payload with neither `prompt` nor `user_id`. -/
def payloadEmpty : Payload := { prompt := none, user_id := none }

/-- An enabled config whose only message is user-role (no system-role
entry). -/
def cfgUserOnly : AIConfig :=
  { enabled := true, model := none
    messages := some [{ role := "user", content := "hi" }] }

/-- Environment: client initialized, lookup returns `cfgUserOnly`, agent
behaves normally. -/
def envC1 : Env :=
  { ldClientInit := true
    configCall := fun _ _ => .ok cfgUserOnly
    agentInit := fun _ => .ok ()
    agentCall := fun m => .ok ("echo:" ++ m)
    trackSuccess := .ok () }

/-! ### Helper lemmas -/

/-- The break-on-first-system loop computes the `find?`-then-`content`
of the list. -/
theorem firstSystemLoop_eq_find (l : List Message) :
    firstSystemLoop l =
      (l.find? (fun m => m.role == "system")).map (fun m => m.content) := by
  induction l with
  | nil => rfl
  | cons m rest ih =>
    by_cases h : m.role = "system"
    · simp [firstSystemLoop, List.find?, h]
    · have hb : (m.role == "system") = false := by simp [h]
      simp [firstSystemLoop, List.find?, h, hb, ih]

/-- The guarded extraction equals first-system-role lookup over the
message list (empty when the list is absent). -/
theorem extractSystemPrompt_eq_find (cfg : AIConfig) :
    extractSystemPrompt cfg =
      ((cfg.messages.getD []).find? (fun m => m.role == "system")).map
        (fun m => m.content) := by
  cases hm : cfg.messages with
  | none => simp [extractSystemPrompt, hm]
  | some l =>
    cases l with
    | nil => simp [extractSystemPrompt, hm]
    | cons a t =>
      simp [extractSystemPrompt, hm, firstSystemLoop_eq_find]

/-! ### C1 -/

/-- C1 counterexample: an enabled config whose message list is the
single user-role message `"hi"` has no system-role entry; the spec's
precedence picks the first message's content `"hi"`, but the code's
extraction yields no system prompt at all. -/
theorem C1_counterexample :
    specSystemPrompt cfgUserOnly = some "hi" ∧
    (resolve envC1 payloadEmpty).system_prompt = none ∧
    (resolve envC1 payloadEmpty).system_prompt ≠ specSystemPrompt cfgUserOnly := by
  refine ⟨rfl, rfl, ?_⟩
  decide

/-- C1 amended: for every enabled resolved config, the system prompt is
the content of the first message whose role is "system"; when no
system-role entry exists (in particular when the message list is empty
or absent) the system prompt is left unset — there is no fallback to the
first message's content. -/
theorem C1_system_prompt_first_system_only (env : Env) (p : Payload) (cfg : AIConfig)
    (hld : env.ldClientInit = true) (hcall : configCallOf env p = .ok cfg)
    (hen : cfg.enabled = true) :
    (resolve env p).system_prompt =
      ((cfg.messages.getD []).find? (fun m => m.role == "system")).map
        (fun m => m.content) := by
  simp [resolve, hld, hcall, hen, extractSystemPrompt_eq_find]

/-- Witness for C1: the amended theorem applied to the concrete
environment `envC1`. -/
theorem C1_system_prompt_first_system_only_witness :
    (resolve envC1 payloadEmpty).system_prompt =
      ((cfgUserOnly.messages.getD []).find? (fun m => m.role == "system")).map
        (fun m => m.content) :=
  C1_system_prompt_first_system_only envC1 payloadEmpty cfgUserOnly rfl rfl rfl

/-! ### C2 -/

/-- An enabled config with no model and no messages. -/
def cfgEnabledPlain : AIConfig :=
  { enabled := true, model := none, messages := none }

/-- Environment: client initialized, enabled config, agent call raises
`"boom"`. -/
def envC2 : Env :=
  { ldClientInit := true
    configCall := fun _ _ => .ok cfgEnabledPlain
    agentInit := fun _ => .ok ()
    agentCall := fun _ => .error "boom"
    trackSuccess := .ok () }

/-- C2 counterexample: the agent invocation raises while a tracking
handle exists and the resolved config is enabled, and an error response
is produced — yet the number of `track_error()` calls is 0, not 1,
because the handler's source never calls `track_error()`. -/
theorem C2_counterexample :
    trackingActive (resolve envC2 payloadEmpty) = true ∧
    (invoke envC2 payloadEmpty).1 = Response.error "Error: boom" ∧
    (invoke envC2 payloadEmpty).2.errorCalls = 0 ∧
    (invoke envC2 payloadEmpty).2.errorCalls ≠ 1 := by
  refine ⟨rfl, rfl, rfl, ?_⟩
  decide

/-- C2 amended: for every request in which agent construction or
invocation raises, the handler makes zero `track_error()` calls (and
zero `track_success()` calls), and produces the structured error
response with the exception text. -/
theorem C2_no_track_error_on_failure (env : Env) (p : Payload) (e : String)
    (h : env.agentInit (resolvedKwargs env p) = .error e ∨
         (env.agentInit (resolvedKwargs env p) = .ok () ∧
          env.agentCall (userMessageOf p) = .error e)) :
    (invoke env p).1 = Response.error ("Error: " ++ e) ∧
    (invoke env p).2.errorCalls = 0 ∧
    (invoke env p).2.successCalls = 0 := by
  simp only [resolvedKwargs] at h
  rcases h with h1 | ⟨h1, h2⟩
  · simp [invoke, invokeBody, h1]
  · simp [invoke, invokeBody, h1, h2]

/-- Witness for C2: the amended theorem applied to `envC2`, whose agent
call raises `"boom"`. -/
theorem C2_no_track_error_on_failure_witness :
    (invoke envC2 payloadEmpty).1 = Response.error ("Error: " ++ "boom") ∧
    (invoke envC2 payloadEmpty).2.errorCalls = 0 ∧
    (invoke envC2 payloadEmpty).2.successCalls = 0 :=
  C2_no_track_error_on_failure envC2 payloadEmpty "boom" (Or.inr ⟨rfl, rfl⟩)

/-! ### C3 -/

/-- Environment: client initialized, remote lookup raises `"down"`,
agent behaves normally. -/
def envC3 : Env :=
  { ldClientInit := true
    configCall := fun _ _ => .error "down"
    agentInit := fun _ => .ok ()
    agentCall := fun _ => .ok "fine"
    trackSuccess := .ok () }

/-- C3: when the remote configuration lookup raises (any exception text
`e`), resolution substitutes the fallback config — enabled false, no
prompt, no model — and the request still proceeds to the agent
invocation: with a working agent the handler returns the agent's reply,
never an error caused by the configuration service. -/
theorem C3_fallback_on_config_error (env : Env) (p : Payload) (e reply : String)
    (hld : env.ldClientInit = true)
    (hcall : configCallOf env p = .error e)
    (hinit : env.agentInit (resolvedKwargs env p) = .ok ())
    (hagent : env.agentCall (userMessageOf p) = .ok reply) :
    (resolve env p).config = some FALLBACK_AI_CONFIG ∧
    (resolve env p).system_prompt = none ∧
    (resolve env p).model_name = none ∧
    (invoke env p).2.sentMessage = some (userMessageOf p) ∧
    (invoke env p).1 = Response.result reply := by
  have hres : resolve env p =
      { system_prompt := none, model_name := none
        config := some FALLBACK_AI_CONFIG
        tracker := false, remoteCallAttempted := true } := by
    simp [resolve, hld, hcall]
  simp only [resolvedKwargs, hres] at hinit
  refine ⟨by simp [hres], by simp [hres], by simp [hres], ?_, ?_⟩ <;>
    simp [invoke, invokeBody, hres, hinit, hagent, trackingActive, effectiveEnabled]

/-- Witness for C3: the theorem applied to `envC3`, whose lookup raises
`"down"` and whose agent replies `"fine"`. -/
theorem C3_fallback_on_config_error_witness :
    (resolve envC3 payloadEmpty).config = some FALLBACK_AI_CONFIG ∧
    (resolve envC3 payloadEmpty).system_prompt = none ∧
    (resolve envC3 payloadEmpty).model_name = none ∧
    (invoke envC3 payloadEmpty).2.sentMessage = some (userMessageOf payloadEmpty) ∧
    (invoke envC3 payloadEmpty).1 = Response.result "fine" :=
  C3_fallback_on_config_error envC3 payloadEmpty "down" "fine" rfl rfl rfl rfl

/-! ### C4 -/

/-- Environment: the configuration client was never initialized. -/
def envC4 : Env :=
  { ldClientInit := false
    configCall := fun _ _ => .ok cfgEnabledPlain
    agentInit := fun _ => .ok ()
    agentCall := fun _ => .ok "fine"
    trackSuccess := .ok () }

/-- C4: when the configuration client was never initialized, resolution
short-circuits to the fallback configuration — effective enabled false,
no system prompt, no model, no tracking — and no remote configuration
call is attempted. -/
theorem C4_uninitialized_client_fallback (env : Env) (p : Payload)
    (h : env.ldClientInit = false) :
    (resolve env p).remoteCallAttempted = false ∧
    (resolve env p).system_prompt = none ∧
    (resolve env p).model_name = none ∧
    effectiveEnabled (resolve env p) = false ∧
    trackingActive (resolve env p) = false := by
  simp [resolve, h, effectiveEnabled, trackingActive]

/-- Witness for C4: the theorem applied to `envC4`. -/
theorem C4_uninitialized_client_fallback_witness :
    (resolve envC4 payloadEmpty).remoteCallAttempted = false ∧
    (resolve envC4 payloadEmpty).system_prompt = none ∧
    (resolve envC4 payloadEmpty).model_name = none ∧
    effectiveEnabled (resolve envC4 payloadEmpty) = false ∧
    trackingActive (resolve envC4 payloadEmpty) = false :=
  C4_uninitialized_client_fallback envC4 payloadEmpty rfl

/-! ### More helper lemmas -/

/-- The run log of `invoke` is the run log of the `try:` body. -/
theorem invoke_snd_eq (env : Env) (p : Payload) :
    (invoke env p).2 = (invokeBody env p).2 := by
  cases h : invokeBody env p with
  | mk r log => cases r <;> simp [invoke, h]

/-- On every path the agent is constructed with exactly the kwargs built
from the resolved prompt and model. -/
theorem invokeBody_kwargs_eq (env : Env) (p : Payload) :
    (invokeBody env p).2.kwargs = resolvedKwargs env p := by
  simp only [invokeBody, resolvedKwargs]
  cases env.agentInit
      (buildAgentKwargs (resolve env p).system_prompt (resolve env p).model_name) with
  | error e => rfl
  | ok u =>
    cases env.agentCall (userMessageOf p) with
    | error e => rfl
    | ok r =>
      by_cases hT : trackingActive (resolve env p)
      · simp only [hT, if_true]
        cases env.trackSuccess <;> rfl
      · simp [hT]

/-- The `"system_prompt"` key is in the kwargs dict exactly when the
resolved system prompt is that non-empty string. -/
theorem mem_kwargs_system_iff (sp mn : Option String) (s : String) :
    ("system_prompt", s) ∈ buildAgentKwargs sp mn ↔ sp = some s ∧ s ≠ "" := by
  cases sp with
  | none =>
    cases mn with
    | none => simp [buildAgentKwargs]
    | some b =>
      by_cases hb : b = "" <;> simp [buildAgentKwargs, hb]
  | some a =>
    cases mn with
    | none =>
      by_cases ha : a = "" <;> simp [buildAgentKwargs, ha, eq_comm]
      · rintro rfl; exact ha
    | some b =>
      by_cases ha : a = "" <;> by_cases hb : b = "" <;>
        simp [buildAgentKwargs, ha, hb, eq_comm]
      · rintro rfl; exact ha
      · rintro rfl; exact ha

/-- The `"model"` key is in the kwargs dict exactly when the resolved
model name is that non-empty string. -/
theorem mem_kwargs_model_iff (sp mn : Option String) (s : String) :
    ("model", s) ∈ buildAgentKwargs sp mn ↔ mn = some s ∧ s ≠ "" := by
  cases sp with
  | none =>
    cases mn with
    | none => simp [buildAgentKwargs]
    | some b =>
      by_cases hb : b = "" <;> simp [buildAgentKwargs, hb, eq_comm]
      · rintro rfl; exact hb
  | some a =>
    cases mn with
    | none =>
      by_cases ha : a = "" <;> simp [buildAgentKwargs, ha]
    | some b =>
      by_cases ha : a = "" <;> by_cases hb : b = "" <;>
        simp [buildAgentKwargs, ha, hb, eq_comm]
      · rintro rfl; exact hb
      · rintro rfl; exact hb

/-! ### C5 -/

/-- C5: the agent construction parameters contain the `"system_prompt"`
key exactly when the resolved system prompt is a non-empty string, and
the `"model"` key exactly when the resolved model name is a non-empty
string; absent or empty fields leave the key out of the dict entirely,
and the agent is constructed with exactly this dict. -/
theorem C5_kwargs_present_iff_nonempty (env : Env) (p : Payload) (s : String) :
    (("system_prompt", s) ∈ resolvedKwargs env p ↔
        (resolve env p).system_prompt = some s ∧ s ≠ "") ∧
    (("model", s) ∈ resolvedKwargs env p ↔
        (resolve env p).model_name = some s ∧ s ≠ "") ∧
    (invoke env p).2.kwargs = resolvedKwargs env p := by
  refine ⟨?_, ?_, ?_⟩
  · exact mem_kwargs_system_iff _ _ s
  · exact mem_kwargs_model_iff _ _ s
  · rw [invoke_snd_eq, invokeBody_kwargs_eq]

/-! ### C6 -/

/-- An enabled config with a system message and a model name, as in the
spec's end-to-end scenario. -/
def cfgSysModel : AIConfig :=
  { enabled := true, model := some { name := "model-a" }
    messages := some [{ role := "system", content := "Be terse." }] }

/-- Environment: client initialized, enabled config with system message
and model, agent behaves normally. -/
def envC6 : Env :=
  { ldClientInit := true
    configCall := fun _ _ => .ok cfgSysModel
    agentInit := fun _ => .ok ()
    agentCall := fun _ => .ok "reply-6"
    trackSuccess := .ok () }

/-- C6: when the agent invocation succeeds (and the tracking sink does
not itself raise), exactly one `track_success()` call occurs when a
tracking handle exists and the resolved config is enabled, zero tracking
calls occur otherwise, and the handler returns the agent's reply as the
result. -/
theorem C6_track_success_on_success (env : Env) (p : Payload) (reply : String)
    (hinit : env.agentInit (resolvedKwargs env p) = .ok ())
    (hagent : env.agentCall (userMessageOf p) = .ok reply)
    (htrack : env.trackSuccess = .ok ()) :
    (invoke env p).2.successCalls =
      (if trackingActive (resolve env p) then 1 else 0) ∧
    (invoke env p).2.errorCalls = 0 ∧
    (invoke env p).1 = Response.result reply := by
  simp only [resolvedKwargs] at hinit
  by_cases hT : trackingActive (resolve env p) <;>
    simp [invoke, invokeBody, hinit, hagent, htrack, hT]

/-- Witness for C6: the theorem applied to `envC6`, where tracking is
active and the reply is `"reply-6"`. -/
theorem C6_track_success_on_success_witness :
    (invoke envC6 payloadEmpty).2.successCalls =
      (if trackingActive (resolve envC6 payloadEmpty) then 1 else 0) ∧
    (invoke envC6 payloadEmpty).2.errorCalls = 0 ∧
    (invoke envC6 payloadEmpty).1 = Response.result "reply-6" :=
  C6_track_success_on_success envC6 payloadEmpty "reply-6" rfl rfl rfl

/-! ### C7 -/

/-- A disabled config that nevertheless carries a model name and a
system-role message. -/
def cfgDisabledRich : AIConfig :=
  { enabled := false, model := some { name := "model-a" }
    messages := some [{ role := "system", content := "X" }] }

/-- Environment: client initialized, lookup returns the disabled-but-rich
config. -/
def envC7 : Env :=
  { ldClientInit := true
    configCall := fun _ _ => .ok cfgDisabledRich
    agentInit := fun _ => .ok ()
    agentCall := fun _ => .ok "fine"
    trackSuccess := .ok () }

/-- C7: when the resolved config reports `enabled = false`, no system
prompt and no model name are extracted — whatever the message list and
model field contain — so the agent is constructed with an empty kwargs
dict (no overrides). -/
theorem C7_disabled_no_extraction (env : Env) (p : Payload) (cfg : AIConfig)
    (hld : env.ldClientInit = true)
    (hcall : configCallOf env p = .ok cfg)
    (hdis : cfg.enabled = false) :
    (resolve env p).system_prompt = none ∧
    (resolve env p).model_name = none ∧
    resolvedKwargs env p = [] ∧
    (invoke env p).2.kwargs = [] := by
  have h1 : (resolve env p).system_prompt = none := by
    simp [resolve, hld, hcall, hdis]
  have h2 : (resolve env p).model_name = none := by
    simp [resolve, hld, hcall, hdis]
  have h3 : resolvedKwargs env p = [] := by
    simp [resolvedKwargs, h1, h2, buildAgentKwargs]
  exact ⟨h1, h2, h3, by rw [invoke_snd_eq, invokeBody_kwargs_eq, h3]⟩

/-- Witness for C7: the theorem applied to `envC7`, whose config is
disabled yet carries both a model name and a system message. -/
theorem C7_disabled_no_extraction_witness :
    (resolve envC7 payloadEmpty).system_prompt = none ∧
    (resolve envC7 payloadEmpty).model_name = none ∧
    resolvedKwargs envC7 payloadEmpty = [] ∧
    (invoke envC7 payloadEmpty).2.kwargs = [] :=
  C7_disabled_no_extraction envC7 payloadEmpty cfgDisabledRich rfl rfl rfl

/-! ### C8 -/

/-- Environment: no configuration client, agent behaves normally. -/
def envC8 : Env :=
  { ldClientInit := false
    configCall := fun _ _ => .ok cfgEnabledPlain
    agentInit := fun _ => .ok ()
    agentCall := fun _ => .ok "greet-reply"
    trackSuccess := .ok () }

/-- When agent construction succeeds, the agent call receives exactly
the user message extracted from the payload, whatever happens next. -/
theorem invokeBody_sentMessage (env : Env) (p : Payload)
    (hinit : env.agentInit (resolvedKwargs env p) = .ok ()) :
    (invokeBody env p).2.sentMessage = some (userMessageOf p) := by
  simp only [resolvedKwargs] at hinit
  simp only [invokeBody, hinit]
  cases env.agentCall (userMessageOf p) with
  | error e => rfl
  | ok r =>
    by_cases hT : trackingActive (resolve env p)
    · simp only [hT, if_true]
      cases env.trackSuccess <;> rfl
    · simp [hT]

/-- C8: when the payload has no `prompt` field, the user message passed
to the agent call is the fixed greeting string. -/
theorem C8_default_greeting (env : Env) (p : Payload)
    (hp : p.prompt = none)
    (hinit : env.agentInit (resolvedKwargs env p) = .ok ()) :
    (invoke env p).2.sentMessage = some "Hello! How can I help you today?" := by
  have hm : userMessageOf p = "Hello! How can I help you today?" := by
    simp [userMessageOf, hp]
  rw [invoke_snd_eq, invokeBody_sentMessage env p hinit, hm]

/-- Witness for C8: the theorem applied to `envC8` and the empty
payload. -/
theorem C8_default_greeting_witness :
    (invoke envC8 payloadEmpty).2.sentMessage =
      some "Hello! How can I help you today?" :=
  C8_default_greeting envC8 payloadEmpty rfl rfl

/-! ### C9 -/

/-- C9: for every payload and every collaborator behavior, the handler
returns exactly one of a result response or an error response, the error
text being the exception text prefixed with "Error: "; it never
propagates an exception (the model's `invoke` is a total function). -/
theorem C9_total_result_or_error (env : Env) (p : Payload) :
    ((∃ s, (invoke env p).1 = Response.result s) ∨
      (∃ m, (invoke env p).1 = Response.error ("Error: " ++ m))) ∧
    (∀ s m, ¬((invoke env p).1 = Response.result s ∧
              (invoke env p).1 = Response.error m)) := by
  constructor
  · cases h : invokeBody env p with
    | mk r log =>
      cases r with
      | ok s => exact Or.inl ⟨s, by simp [invoke, h]⟩
      | error e => exact Or.inr ⟨e, by simp [invoke, h]⟩
  · rintro s m ⟨h1, h2⟩
    rw [h1] at h2
    exact Response.noConfusion h2

/-! ### C10 -/

/-- Environment: enabled config with tracking, successful agent call,
but `track_success()` raises `"sink-down"`. -/
def envC10 : Env :=
  { ldClientInit := true
    configCall := fun _ _ => .ok cfgSysModel
    agentInit := fun _ => .ok ()
    agentCall := fun _ => .ok "good-reply"
    trackSuccess := .error "sink-down" }

/-- C10: when the agent invocation succeeds but the subsequent
`track_success()` call raises, the handler returns an error response and
discards the agent's successful reply (the one `track_success()` call
still happened). -/
theorem C10_track_failure_discards_reply (env : Env) (p : Payload) (reply e : String)
    (hinit : env.agentInit (resolvedKwargs env p) = .ok ())
    (hagent : env.agentCall (userMessageOf p) = .ok reply)
    (hact : trackingActive (resolve env p) = true)
    (htrack : env.trackSuccess = .error e) :
    (invoke env p).1 = Response.error ("Error: " ++ e) ∧
    (invoke env p).1 ≠ Response.result reply ∧
    (invoke env p).2.successCalls = 1 := by
  simp only [resolvedKwargs] at hinit
  have h1 : (invoke env p).1 = Response.error ("Error: " ++ e) := by
    simp [invoke, invokeBody, hinit, hagent, hact, htrack]
  refine ⟨h1, ?_, ?_⟩
  · rw [h1]
    intro hcontra
    exact Response.noConfusion hcontra
  · simp [invoke, invokeBody, hinit, hagent, hact, htrack]

/-- Witness for C10: the theorem applied to `envC10`, whose tracking
sink raises `"sink-down"` after the agent replied `"good-reply"`. -/
theorem C10_track_failure_discards_reply_witness :
    (invoke envC10 payloadEmpty).1 = Response.error ("Error: " ++ "sink-down") ∧
    (invoke envC10 payloadEmpty).1 ≠ Response.result "good-reply" ∧
    (invoke envC10 payloadEmpty).2.successCalls = 1 :=
  C10_track_failure_discards_reply envC10 payloadEmpty "good-reply" "sink-down"
    rfl rfl rfl rfl

end MyAgent
